import Mathlib

/-!
Shallow embedding of the execution-request/reply correlation core of
`orangecontrib/prototypes/widgets/notebook.py` (class `NotebookEditor`,
its `_CellData` records, the `_execute_msg_ids` correlation dictionary,
and the message handlers `_handle_execute_reply`, `_handle_execute_result`,
`_handle_display_data`, `_handle_image_display_data`,
`_handle_html_display_data`, `_handle_stream`), together with the
submit path `execute_cell`.

Modelling conventions:
* A cell's rich output view (`RichOutputView`, a `QTextBrowser`, hence a
  `QTextEdit` and not a `QPlainTextEdit`) is modelled as the ordered list
  of append operations performed on it (`ViewItem`), plus its `visible`
  flag.  `clearoutput` (bound to `output.clear`) empties that list and
  leaves visibility alone.
* `set_execution_count` in the source only rewrites the `In [..]` /
  `Out [..]` prompt label texts; we record the count those labels
  display as `prompt_count : Option Int` (`none` renders as a blank
  prompt).
* The correlation dictionary `_execute_msg_ids : Dict[str, _CellData]`
  maps message ids to cells; we represent cells by their index in the
  `_cells` list and the dictionary as an association list.  Its
  iteration order is never observed by the program (only `get`, `pop`
  and item assignment are used), so the representation keeps the newest
  binding in front and drops any older binding for the same key.
* Mime payload maps (`data : mapping<mimeType, str>`) arrive from the
  wire; they are kept as insertion-ordered association lists because
  `dict.popitem()` in `_handle_image_display_data` removes the LAST
  inserted item, which is observable.
* The kernel transport is external: `execute_cell` takes the transport
  as `Option String` — `some msgId` stands for an attached
  `kernel_client` whose `execute(source)` call returns `msgId`, and
  `none` stands for `kernel_client is None`, in which case the attribute
  access `self.kernel_client.execute` raises before any id is assigned.
-/

namespace NB

/-- One item appended to a cell's rich output view: the code appends via
`append_plain_text`, `append_html_contents` or `append_svg_contents`. -/
inductive ViewItem where
  | plain (text : String)
  | html (content : String)
  | svg (payload : String)
  deriving DecidableEq

/-- The `_CellData` record of `NotebookEditor` (plus the prompt labels it
closes over).  `output` is the sequence of appends made to the cell's
output view, `visible` the view's visibility, `prompt_count` the count
displayed by the `In[..]`/`Out[..]` labels (set by `set_execution_count`),
`output_content` the raw jupyter payload history list. -/
structure CellData where
  execute_request_msg_id : Option String := none
  prompt_count : Option Int := none
  output : List ViewItem := []
  visible : Bool := false
  output_content : List (List (String × String)) := []
  source : String := ""
  deriving DecidableEq

/-- The `NotebookEditor` state relevant to the correlation core: the
`_cells` list and the `_execute_msg_ids` dictionary (message id to cell
index). -/
structure NotebookEditor where
  cells : List CellData := []
  execute_msg_ids : List (String × Nat) := []
  deriving DecidableEq

/-- `d.get(k)` on the correlation dictionary. -/
def dictGet (d : List (String × Nat)) (k : String) : Option Nat :=
  (d.find? (fun kv => kv.1 == k)).map (fun kv => kv.2)

/-- `d.pop(k, None)` on the correlation dictionary: remove the binding for
`k` if present; `k = none` (popping `None`) never matches a string key. -/
def dictPop (d : List (String × Nat)) (k : Option String) : List (String × Nat) :=
  match k with
  | none => d
  | some k => d.filter (fun kv => kv.1 != k)

/-- `d[k] = v` on the correlation dictionary.  Iteration order of this
dictionary is never observed, so the new binding is kept in front and any
old binding for `k` is dropped. -/
def dictInsert (d : List (String × Nat)) (k : String) (v : Nat) : List (String × Nat) :=
  (k, v) :: d.filter (fun kv => kv.1 != k)

/-- `data.get(k, dflt)` on a mime payload map. -/
def dataGet (d : List (String × String)) (k : String) (dflt : String) : String :=
  match d.find? (fun kv => kv.1 == k) with
  | some kv => kv.2
  | none => dflt

/-- `key.startswith(p)`. -/
def startswith (s p : String) : Bool :=
  p.data.isPrefixOf s.data

/-- `xml.sax.saxutils.escape`: replace the ampersand by the amp entity,
then the angle brackets by the lt/gt entities (character-by-character
formulation; the replacements introduce no characters that a later pass
would rewrite, so this equals the sequential replace calls). -/
def escapeChars : List Char → List Char
  | [] => []
  | '&' :: rest => '&' :: 'a' :: 'm' :: 'p' :: ';' :: escapeChars rest
  | '<' :: rest => '&' :: 'l' :: 't' :: ';' :: escapeChars rest
  | '>' :: rest => '&' :: 'g' :: 't' :: ';' :: escapeChars rest
  | c :: rest => c :: escapeChars rest

/-- `xml.sax.saxutils.escape` on strings. -/
def escape (s : String) : String :=
  String.mk (escapeChars s.data)

/-- Modelled from the spec: the helper `remove_ansi_control` is imported
from `orangecontrib/prototypes/widgets/utils/kernel_client.py`, which is
not among the sources; the spec says error tracebacks are sanitized by
stripping ANSI control sequences.  State machine over the character list:
the flag is true while inside a CSI sequence (opened by ESC `[`, closed
by a final byte in the range `@`..`~`); characters inside the sequence
are dropped, all others are kept. -/
def stripAnsiChars : Bool → List Char → List Char
  | true, [] => []
  | true, c :: rest =>
    if '@' ≤ c ∧ c ≤ '~' then stripAnsiChars false rest
    else stripAnsiChars true rest
  | false, [] => []
  | false, '\x1b' :: '[' :: rest => stripAnsiChars true rest
  | false, c :: rest => c :: stripAnsiChars false rest

/-- Modelled from the spec: strip ANSI control sequences from a string
(see `stripAnsiChars`). -/
def remove_ansi_control (s : String) : String :=
  String.mk (stripAnsiChars false s.data)

/-- `"\n".join(lines)`. -/
def joinLines : List String → String
  | [] => ""
  | [s] => s
  | s :: rest => s ++ "\n" ++ joinLines rest

/-- Content of an `execute_reply` message: `content["status"]` is read
unconditionally, `traceback` defaults to `[]`, `execution_count` to
`None`. -/
structure ExecuteReplyContent where
  status : String
  traceback : List String := []
  execution_count : Option Int := none
  deriving DecidableEq

/-- Content of an `execute_result` message. -/
structure ExecuteResultContent where
  data : List (String × String) := []
  execution_count : Option Int := none
  deriving DecidableEq

/-- Content of a `display_data` message. -/
structure DisplayDataContent where
  data : List (String × String) := []
  deriving DecidableEq

/-- Content of a `stream` message: `text` and `name` are read with
`content.get`, so they may be absent. -/
structure StreamContent where
  text : Option String := none
  name : Option String := none
  execution_count : Option Int := none
  deriving DecidableEq

/-- The four inbound kernel message kinds the router handles, each
carrying the parent request id read from `msg["parent_header"]["msg_id"]`
(absent when the parent header or its id is missing). -/
inductive KernelMsg where
  | executeReply (parent_msg_id : Option String) (content : ExecuteReplyContent)
  | executeResult (parent_msg_id : Option String) (content : ExecuteResultContent)
  | displayData (parent_msg_id : Option String) (content : DisplayDataContent)
  | stream (parent_msg_id : Option String) (content : StreamContent)
  deriving DecidableEq

/-- The parent request id a message carries. -/
def msgParent : KernelMsg → Option String
  | .executeReply p _ => p
  | .executeResult p _ => p
  | .displayData p _ => p
  | .stream p _ => p

/-- The `set_execution_count` closure built in `_insert_code_cell`: it
rewrites the prompt labels to show `count` (a `None` count renders
blank); modelled as storing the displayed count. -/
def set_execution_count (cell : CellData) (count : Option Int) : CellData :=
  { cell with prompt_count := count }

/-- Replace the cell at index `i`. -/
def setCell (st : NotebookEditor) (i : Nat) (cell : CellData) : NotebookEditor :=
  { st with cells := st.cells.set i cell }

/-- `self._execute_msg_ids.get(parent_msg_id)`: resolve the parent id of
a message to the owning cell's index; `None` ids and unknown ids resolve
to nothing. -/
def resolveCell (st : NotebookEditor) (parent : Option String) : Option Nat :=
  match parent with
  | none => none
  | some k => dictGet st.execute_msg_ids k

/-- Common shape of every handler: resolve the cell from the parent id
and, when found, apply the handler's per-cell action; otherwise do
nothing.  (In Python the dictionary holds the `_CellData` object itself;
with index representation a dangling index also resolves to nothing.) -/
def applyToResolved (st : NotebookEditor) (parent : Option String)
    (f : CellData → CellData) : NotebookEditor :=
  match resolveCell st parent with
  | none => st
  | some i =>
    match st.cells[i]? with
    | none => st
    | some cell => setCell st i (f cell)

/-- Per-cell action of `_handle_execute_reply`: on an error status, join
the traceback lines, strip ANSI control sequences, and if the result is
non-empty append it as plain text and show the view; in all cases set the
execution count from the reply (defaulting to `None`). -/
def handle_execute_reply_cell (cell : CellData) (content : ExecuteReplyContent) : CellData :=
  let cell :=
    if content.status = "error" then
      let tb := remove_ansi_control (joinLines content.traceback)
      if tb ≠ "" then
        { cell with output := cell.output ++ [ViewItem.plain tb], visible := true }
      else cell
    else cell
  set_execution_count cell content.execution_count

/-- Per-cell action of `_handle_execute_result`: append the `text/plain`
payload as plain text when non-empty (showing the view), set the
execution count, and append the raw payload map to `output_content`. -/
def handle_execute_result_cell (cell : CellData) (content : ExecuteResultContent) : CellData :=
  let text := dataGet content.data "text/plain" ""
  let cell :=
    if text ≠ "" then
      { cell with output := cell.output ++ [ViewItem.plain text], visible := true }
    else cell
  let cell := set_execution_count cell content.execution_count
  { cell with output_content := cell.output_content ++ [content.data] }

/-- `_handle_image_display_data`: filter the payload down to `image/*`
keys and `popitem()` — i.e. take the LAST inserted image entry.  The
output views of code cells are `RichOutputView`s (`QTextBrowser`, a
`QTextEdit`), so the `QPlainTextEdit` plain-text branch is unreachable in
`NotebookEditor` and is not modelled.  A png payload is appended as an
inline-image html fragment, an svg payload as a newline plus an svg
object; any other image mimetype produces no output.  (Python's
`popitem()` on an empty dict would raise; the only caller passes a
non-empty image map.) -/
def handle_image_display_data (cell : CellData) (data : List (String × String)) : CellData :=
  let image_data := data.filter (fun kv => startswith kv.1 "image/")
  match image_data.getLast? with
  | none => cell
  | some (mimetype, payload) =>
    if mimetype = "image/png" then
      { cell with output := cell.output ++
          [ViewItem.html ("<br/><img src=\"data:image/png;base64," ++ payload ++ "\" />")] }
    else if mimetype = "image/svg+xml" then
      { cell with output := cell.output ++ [ViewItem.plain "\n", ViewItem.svg payload] }
    else cell

/-- `_handle_html_display_data`: append the `text/html` payload (default
empty) as html; the view is a `QTextEdit` subclass, so the append always
happens. -/
def handle_html_display_data (cell : CellData) (data : List (String × String)) : CellData :=
  let content := dataGet data "text/html" ""
  { cell with output := cell.output ++ [ViewItem.html content] }

/-- Per-cell action of `_handle_display_data`: if any `image/*` key is
present, hand the IMAGE-FILTERED map (not the full payload) to the image
handler and stop; otherwise, if `text/html` is present and non-empty,
hand the full payload to the html handler; otherwise do nothing. -/
def handle_display_data_cell (cell : CellData) (data : List (String × String)) : CellData :=
  let image_data := data.filter (fun kv => startswith kv.1 "image/")
  if image_data ≠ [] then handle_image_display_data cell image_data
  else
    let html_data := dataGet data "text/html" ""
    if html_data ≠ "" then handle_html_display_data cell data
    else cell

/-- Per-cell action of `_handle_stream`: when the text payload is
non-empty, append it xml-escaped inside a span classed by the channel
name (a missing name prints as the string None) and show the view; in
all cases set the execution count from the message (defaulting to
`None`). -/
def handle_stream_cell (cell : CellData) (content : StreamContent) : CellData :=
  let text := content.text.getD ""
  let name := match content.name with | some s => s | none => "None"
  let cell :=
    if text ≠ "" then
      { cell with
        output := cell.output ++
          [ViewItem.html ("<span class=\"" ++ name ++ "\">" ++ escape text ++ "</span>")],
        visible := true }
    else cell
  set_execution_count cell content.execution_count

/-- The message router: dispatch one inbound message to its handler. -/
def handle_msg (st : NotebookEditor) (m : KernelMsg) : NotebookEditor :=
  match m with
  | .executeReply p c => applyToResolved st p (fun cell => handle_execute_reply_cell cell c)
  | .executeResult p c => applyToResolved st p (fun cell => handle_execute_result_cell cell c)
  | .displayData p c => applyToResolved st p (fun cell => handle_display_data_cell cell c.data)
  | .stream p c => applyToResolved st p (fun cell => handle_stream_cell cell c)

/-- The exceptions `execute_cell` can raise: indexing `self._cells[index]`
out of range, or calling `.execute` on an absent (`None`) kernel client. -/
inductive ExecuteCellError where
  | indexError
  | attributeError
  deriving DecidableEq

/-- `NotebookEditor.execute_cell`, with the kernel transport passed in as
`client` (`some msgId`: attached client whose `execute(source)` call
returns `msgId`; `none`: no client).  Mutations happen in source order:
pop the cell's previous pending entry from the dictionary, read the
source, clear the output view, call the transport (raising here when the
client is absent), store the returned id as the pending id and register
it in the dictionary.  Returns the state reached together with the
exception propagated to the caller, if any. -/
def execute_cell (st : NotebookEditor) (index : Nat) (client : Option String) :
    NotebookEditor × Option ExecuteCellError :=
  match st.cells[index]? with
  | none => (st, some ExecuteCellError.indexError)
  | some cell =>
    let table := dictPop st.execute_msg_ids cell.execute_request_msg_id
    let cell1 := { cell with output := [] }
    let st1 : NotebookEditor :=
      { cells := st.cells.set index cell1, execute_msg_ids := table }
    match client with
    | none => (st1, some ExecuteCellError.attributeError)
    | some msg_id =>
      let cell2 := { cell1 with execute_request_msg_id := some msg_id }
      let st2 : NotebookEditor :=
        { cells := st.cells.set index cell2
          execute_msg_ids := dictInsert table msg_id index }
      (st2, none)

/-- One interaction step: either a submit (`execute_cell`) or the arrival
of one inbound kernel message. -/
inductive Step where
  | exec (index : Nat) (client : Option String)
  | msg (m : KernelMsg)

/-- Apply one step. -/
def runStep (st : NotebookEditor) : Step → NotebookEditor
  | .exec i c => (execute_cell st i c).1
  | .msg m => handle_msg st m

/-- Run a sequence of steps. -/
def runSteps (st : NotebookEditor) (steps : List Step) : NotebookEditor :=
  steps.foldl runStep st

/-- Correlation-table invariant: every entry of `_execute_msg_ids` maps a
key to an existing cell whose current pending request id is exactly that
key.  It implies that at most one entry exists per cell and that its key
is the cell's most recently issued request id. -/
def TableInv (st : NotebookEditor) : Prop :=
  ∀ k i, dictGet st.execute_msg_ids k = some i →
    ∃ cell, st.cells[i]? = some cell ∧ cell.execute_request_msg_id = some k

/-! ### Dictionary lemmas -/

theorem find?_filter_key_ne (d : List (String × Nat)) (k k' : String) (h : k' ≠ k) :
    (d.filter (fun kv => kv.1 != k)).find? (fun kv => kv.1 == k') =
      d.find? (fun kv => kv.1 == k') := by
  induction d with
  | nil => rfl
  | cons a d ih =>
    rcases eq_or_ne a.1 k with h1 | h1
    · have hfa : (a.1 != k) = false := by simp [h1]
      have hpa : (a.1 == k') = false := by
        simp only [beq_eq_false_iff_ne, ne_eq, h1]
        exact fun e => h e.symm
      simp [List.filter_cons, List.find?_cons, hfa, hpa, ih]
    · have hfa : (a.1 != k) = true := by simp [h1]
      rcases eq_or_ne a.1 k' with h2 | h2
      · have hpa : (a.1 == k') = true := by simp [h2]
        simp [List.filter_cons, List.find?_cons, hfa, hpa]
      · have hpa : (a.1 == k') = false := by simp [h2]
        simp [List.filter_cons, List.find?_cons, hfa, hpa, ih]

theorem find?_filter_key_self (d : List (String × Nat)) (k : String) :
    (d.filter (fun kv => kv.1 != k)).find? (fun kv => kv.1 == k) = none := by
  induction d with
  | nil => rfl
  | cons a d ih =>
    rcases eq_or_ne a.1 k with h1 | h1
    · have hfa : (a.1 != k) = false := by simp [h1]
      simp [List.filter_cons, hfa, ih]
    · have hfa : (a.1 != k) = true := by simp [h1]
      have hpa : (a.1 == k) = false := by simp [h1]
      simp [List.filter_cons, List.find?_cons, hfa, hpa, ih]

theorem dictGet_dictPop_self (d : List (String × Nat)) (k : String) :
    dictGet (dictPop d (some k)) k = none := by
  simp [dictGet, dictPop, find?_filter_key_self]

theorem dictGet_dictPop_ne (d : List (String × Nat)) (k k' : String) (h : k' ≠ k) :
    dictGet (dictPop d (some k)) k' = dictGet d k' := by
  simp [dictGet, dictPop, find?_filter_key_ne d k k' h]

theorem dictGet_dictPop_some (d : List (String × Nat)) (o : Option String)
    (k : String) (i : Nat) (h : dictGet (dictPop d o) k = some i) :
    dictGet d k = some i := by
  cases o with
  | none => exact h
  | some o =>
    rcases eq_or_ne k o with he | he
    · subst he
      rw [dictGet_dictPop_self] at h
      cases h
    · rwa [dictGet_dictPop_ne d o k he] at h

theorem dictGet_dictInsert_self (d : List (String × Nat)) (k : String) (v : Nat) :
    dictGet (dictInsert d k v) k = some v := by
  simp [dictGet, dictInsert, List.find?_cons]

theorem dictGet_dictInsert_ne (d : List (String × Nat)) (k k' : String) (v : Nat)
    (h : k' ≠ k) :
    dictGet (dictInsert d k v) k' = dictGet d k' := by
  have hk : (k == k') = false := by
    simp only [beq_eq_false_iff_ne, ne_eq]
    exact fun e => h e.symm
  simp [dictGet, dictInsert, List.find?_cons, hk, find?_filter_key_ne d k k' h]

/-! ### Characterization of `execute_cell` and the handlers -/

theorem execute_cell_index_err (st : NotebookEditor) (index : Nat) (client : Option String)
    (h : st.cells[index]? = none) :
    execute_cell st index client = (st, some ExecuteCellError.indexError) := by
  simp [execute_cell, h]

theorem execute_cell_no_client (st : NotebookEditor) (index : Nat) (cell : CellData)
    (h : st.cells[index]? = some cell) :
    execute_cell st index none =
      ({ cells := st.cells.set index { cell with output := [] }
         execute_msg_ids := dictPop st.execute_msg_ids cell.execute_request_msg_id },
       some ExecuteCellError.attributeError) := by
  simp [execute_cell, h]

theorem execute_cell_with_client (st : NotebookEditor) (index : Nat) (cell : CellData)
    (msg_id : String) (h : st.cells[index]? = some cell) :
    execute_cell st index (some msg_id) =
      ({ cells := st.cells.set index
           { cell with output := [], execute_request_msg_id := some msg_id }
         execute_msg_ids :=
           dictInsert (dictPop st.execute_msg_ids cell.execute_request_msg_id) msg_id index },
       none) := by
  simp [execute_cell, h]

theorem applyToResolved_unresolved (st : NotebookEditor) (p : Option String)
    (f : CellData → CellData) (h : resolveCell st p = none) :
    applyToResolved st p f = st := by
  simp [applyToResolved, h]

theorem applyToResolved_resolved (st : NotebookEditor) (p : Option String)
    (f : CellData → CellData) (i : Nat) (cell : CellData)
    (h : resolveCell st p = some i) (hc : st.cells[i]? = some cell) :
    applyToResolved st p f = setCell st i (f cell) := by
  simp [applyToResolved, h, hc]

theorem applyToResolved_msg_ids (st : NotebookEditor) (p : Option String)
    (f : CellData → CellData) :
    (applyToResolved st p f).execute_msg_ids = st.execute_msg_ids := by
  unfold applyToResolved
  split
  · rfl
  · split <;> rfl

/-! ### The handlers do not touch a cell's pending request id -/

theorem handle_execute_reply_cell_msg_id (c : CellData) (x : ExecuteReplyContent) :
    (handle_execute_reply_cell c x).execute_request_msg_id = c.execute_request_msg_id := by
  unfold handle_execute_reply_cell set_execution_count
  dsimp only
  repeat' split
  all_goals rfl

theorem handle_execute_result_cell_msg_id (c : CellData) (x : ExecuteResultContent) :
    (handle_execute_result_cell c x).execute_request_msg_id = c.execute_request_msg_id := by
  unfold handle_execute_result_cell set_execution_count
  dsimp only
  repeat' split
  all_goals rfl

theorem handle_image_display_data_msg_id (c : CellData) (d : List (String × String)) :
    (handle_image_display_data c d).execute_request_msg_id = c.execute_request_msg_id := by
  unfold handle_image_display_data
  dsimp only
  repeat' split
  all_goals rfl

theorem handle_display_data_cell_msg_id (c : CellData) (d : List (String × String)) :
    (handle_display_data_cell c d).execute_request_msg_id = c.execute_request_msg_id := by
  unfold handle_display_data_cell handle_html_display_data
  dsimp only
  repeat' split
  all_goals first
  | rfl
  | exact handle_image_display_data_msg_id _ _

theorem handle_stream_cell_msg_id (c : CellData) (x : StreamContent) :
    (handle_stream_cell c x).execute_request_msg_id = c.execute_request_msg_id := by
  unfold handle_stream_cell set_execution_count
  dsimp only
  repeat' split
  all_goals rfl

theorem applyToResolved_dangling (st : NotebookEditor) (p : Option String)
    (f : CellData → CellData) (i : Nat)
    (h : resolveCell st p = some i) (hc : st.cells[i]? = none) :
    applyToResolved st p f = st := by
  simp [applyToResolved, h, hc]

/-! ### Preservation of the table invariant -/

theorem tableInv_setCell (st : NotebookEditor) (i : Nat) (cell : CellData)
    (f : CellData → CellData)
    (hc : st.cells[i]? = some cell)
    (hf : (f cell).execute_request_msg_id = cell.execute_request_msg_id)
    (h : TableInv st) : TableInv (setCell st i (f cell)) := by
  intro k j hkj
  have hkj0 : dictGet st.execute_msg_ids k = some j := hkj
  obtain ⟨c', hc', hid⟩ := h k j hkj0
  rcases eq_or_ne j i with rfl | hne
  · have hlt : j < st.cells.length := (List.getElem?_eq_some.mp hc).1
    refine ⟨f cell, ?_, ?_⟩
    · show (st.cells.set j (f cell))[j]? = some (f cell)
      exact List.getElem?_set_self hlt
    · rw [hf]
      rw [hc] at hc'
      cases hc'
      exact hid
  · refine ⟨c', ?_, hid⟩
    show (st.cells.set i (f cell))[j]? = some c'
    rw [List.getElem?_set_ne (Ne.symm hne)]
    exact hc'

theorem tableInv_applyToResolved (st : NotebookEditor) (p : Option String)
    (f : CellData → CellData)
    (hf : ∀ c, (f c).execute_request_msg_id = c.execute_request_msg_id)
    (h : TableInv st) : TableInv (applyToResolved st p f) := by
  cases hres : resolveCell st p with
  | none => rw [applyToResolved_unresolved st p f hres]; exact h
  | some i =>
    cases hc : st.cells[i]? with
    | none => rw [applyToResolved_dangling st p f i hres hc]; exact h
    | some cell =>
      rw [applyToResolved_resolved st p f i cell hres hc]
      exact tableInv_setCell st i cell f hc (hf cell) h

theorem tableInv_handle_msg (st : NotebookEditor) (m : KernelMsg)
    (h : TableInv st) : TableInv (handle_msg st m) := by
  cases m with
  | executeReply p c =>
    exact tableInv_applyToResolved st p _
      (fun cell => handle_execute_reply_cell_msg_id cell c) h
  | executeResult p c =>
    exact tableInv_applyToResolved st p _
      (fun cell => handle_execute_result_cell_msg_id cell c) h
  | displayData p c =>
    exact tableInv_applyToResolved st p _
      (fun cell => handle_display_data_cell_msg_id cell c.data) h
  | stream p c =>
    exact tableInv_applyToResolved st p _
      (fun cell => handle_stream_cell_msg_id cell c) h

theorem tableInv_execute_cell (st : NotebookEditor) (index : Nat) (client : Option String)
    (h : TableInv st) : TableInv (execute_cell st index client).1 := by
  cases hc : st.cells[index]? with
  | none => rw [execute_cell_index_err st index client hc]; exact h
  | some cell =>
    cases client with
    | none =>
      rw [execute_cell_no_client st index cell hc]
      intro k j hkj
      have hkj0 : dictGet st.execute_msg_ids k = some j :=
        dictGet_dictPop_some _ _ _ _ hkj
      obtain ⟨c', hc', hid⟩ := h k j hkj0
      rcases eq_or_ne j index with rfl | hne
      · have hlt : j < st.cells.length := (List.getElem?_eq_some.mp hc).1
        refine ⟨{ cell with output := [] }, List.getElem?_set_self hlt, ?_⟩
        rw [hc] at hc'
        cases hc'
        exact hid
      · exact ⟨c', by
          show (st.cells.set index _)[j]? = some c'
          rw [List.getElem?_set_ne (Ne.symm hne)]
          exact hc', hid⟩
    | some msg_id =>
      rw [execute_cell_with_client st index cell msg_id hc]
      dsimp only
      intro k j hkj
      rcases eq_or_ne k msg_id with rfl | hkne
      · rw [dictGet_dictInsert_self] at hkj
        cases hkj
        have hlt : index < st.cells.length := (List.getElem?_eq_some.mp hc).1
        exact ⟨_, List.getElem?_set_self hlt, rfl⟩
      · rw [dictGet_dictInsert_ne
          (dictPop st.execute_msg_ids cell.execute_request_msg_id) msg_id k index hkne] at hkj
        have hkj0 : dictGet st.execute_msg_ids k = some j :=
          dictGet_dictPop_some _ _ _ _ hkj
        obtain ⟨c', hc', hid⟩ := h k j hkj0
        rcases eq_or_ne j index with rfl | hne
        · rw [hc] at hc'
          cases hc'
          rw [hid] at hkj
          rw [dictGet_dictPop_self] at hkj
          cases hkj
        · exact ⟨c', by
            show (st.cells.set index _)[j]? = some c'
            rw [List.getElem?_set_ne (Ne.symm hne)]
            exact hc', hid⟩

theorem tableInv_runStep (st : NotebookEditor) (s : Step) (h : TableInv st) :
    TableInv (runStep st s) := by
  cases s with
  | exec i c => exact tableInv_execute_cell st i c h
  | msg m => exact tableInv_handle_msg st m h

/-! ### Concrete fixtures used by counterexamples and witnesses -/

/-- A cell with a pending request id and a displayed execution count. -/
def cell1 : CellData :=
  { execute_request_msg_id := some "m1", prompt_count := some 5 }

/-- A one-cell notebook whose cell's pending request "m1" is correlated
in the table. -/
def nb1 : NotebookEditor :=
  { cells := [cell1], execute_msg_ids := [("m1", 0)] }

/-- A fresh one-cell notebook with an empty correlation table. -/
def nb0 : NotebookEditor :=
  { cells := [{}], execute_msg_ids := [] }

/-- A one-cell notebook with prior output, used for the absent-transport
scenario. -/
def nb6 : NotebookEditor :=
  { cells := [{ execute_request_msg_id := some "m0", output := [ViewItem.plain "old"] }]
    execute_msg_ids := [("m0", 0)] }

/-- A terminal error reply answering request "m1". -/
def errReply : KernelMsg :=
  KernelMsg.executeReply (some "m1") { status := "error", traceback := ["ZeroDivisionError"] }

/-! ### C1 -/

/-- C1: over every sequence of submit (`execute_cell`) and inbound-message
steps from a state satisfying `TableInv`, the invariant is preserved —
each correlation-table entry's key is the owning cell's currently pending
(most recently issued) request id, because `execute_cell` first evicts the
cell's prior entry before registering the new id — and consequently no
two table entries ever map to the same cell. -/
theorem table_entry_is_most_recent (st : NotebookEditor) (steps : List Step)
    (h : TableInv st) :
    TableInv (runSteps st steps) ∧
      ∀ k1 k2 i, dictGet (runSteps st steps).execute_msg_ids k1 = some i →
        dictGet (runSteps st steps).execute_msg_ids k2 = some i → k1 = k2 := by
  have hrun : TableInv (runSteps st steps) := by
    induction steps generalizing st with
    | nil => exact h
    | cons s rest ih => exact ih (runStep st s) (tableInv_runStep st s h)
  refine ⟨hrun, fun k1 k2 i h1 h2 => ?_⟩
  obtain ⟨d1, hd1, hid1⟩ := hrun k1 i h1
  obtain ⟨d2, hd2, hid2⟩ := hrun k2 i h2
  rw [hd1] at hd2
  cases hd2
  exact Option.some.inj (hid1.symm.trans hid2)

/-- Witness for `table_entry_is_most_recent` at a concrete run that
submits the same cell twice. -/
theorem table_entry_is_most_recent_witness :
    TableInv nb0 ∧
      (TableInv (runSteps nb0 [Step.exec 0 (some "r1"), Step.exec 0 (some "r2")]) ∧
        ∀ k1 k2 i,
          dictGet (runSteps nb0
            [Step.exec 0 (some "r1"), Step.exec 0 (some "r2")]).execute_msg_ids k1 = some i →
          dictGet (runSteps nb0
            [Step.exec 0 (some "r1"), Step.exec 0 (some "r2")]).execute_msg_ids k2 = some i →
          k1 = k2) :=
  have h0 : TableInv nb0 := by
    intro k i hk
    simp [dictGet, nb0] at hk
  ⟨h0, table_entry_is_most_recent nb0 [Step.exec 0 (some "r1"), Step.exec 0 (some "r2")] h0⟩

/-! ### C2 -/

/-- C2 counterexample: in `nb1` request "m1" is correlated to cell 0;
after processing the terminal executeReply for "m1" the entry is still in
the table (the handler never calls any removal), contradicting the claim
that processing the reply removes the entry. -/
theorem execute_reply_entry_not_removed_cx :
    dictGet nb1.execute_msg_ids "m1" = some 0 ∧
    dictGet (handle_msg nb1 (KernelMsg.executeReply (some "m1")
      { status := "ok", execution_count := some 1 })).execute_msg_ids "m1" = some 0 := by
  decide

/-- C2 (amended): processing an executeReply — terminal or not — never
removes (or otherwise changes) a correlation-table entry; entries are
removed only when a later `execute_cell` on the same cell evicts them. -/
theorem execute_reply_leaves_table_unchanged (st : NotebookEditor) (p : Option String)
    (c : ExecuteReplyContent) :
    (handle_msg st (KernelMsg.executeReply p c)).execute_msg_ids = st.execute_msg_ids :=
  applyToResolved_msg_ids st p _

/-! ### C3 -/

/-- C3 counterexample: delivering the same terminal error executeReply to
`nb1` twice is not idempotent — the correlation entry survives the first
delivery, so the second delivery resolves again and appends the traceback
a second time. -/
theorem reply_twice_not_noop_cx :
    ((handle_msg nb1 errReply).cells[0]?).map (fun c => c.output) =
      some [ViewItem.plain "ZeroDivisionError"] ∧
    ((handle_msg (handle_msg nb1 errReply) errReply).cells[0]?).map (fun c => c.output) =
      some [ViewItem.plain "ZeroDivisionError", ViewItem.plain "ZeroDivisionError"] := by
  decide

theorem applyToResolved_idem (st : NotebookEditor) (p : Option String)
    (f : CellData → CellData) (hff : ∀ cl, f (f cl) = f cl) :
    applyToResolved (applyToResolved st p f) p f = applyToResolved st p f := by
  cases hres : resolveCell st p with
  | none =>
    rw [applyToResolved_unresolved st p f hres, applyToResolved_unresolved st p f hres]
  | some i =>
    cases hc : st.cells[i]? with
    | none =>
      rw [applyToResolved_dangling st p f i hres hc,
        applyToResolved_dangling st p f i hres hc]
    | some cell =>
      have hlt : i < st.cells.length := (List.getElem?_eq_some.mp hc).1
      rw [applyToResolved_resolved st p f i cell hres hc]
      have hres2 : resolveCell (setCell st i (f cell)) p = some i := hres
      have hc2 : (setCell st i (f cell)).cells[i]? = some (f cell) :=
        List.getElem?_set_self hlt
      rw [applyToResolved_resolved _ p f i (f cell) hres2 hc2]
      simp [setCell, List.set_set, hff]

/-- C3 (amended): the second delivery of a terminal executeReply is
reprocessed, not dropped (the entry is never evicted by reply handling);
for a reply whose status is not "error" the reprocessing is harmless —
delivering it twice equals delivering it once — while an error reply with
a non-empty sanitized traceback duplicates its traceback output (see the
counterexample). -/
theorem reply_twice_idempotent_for_ok (st : NotebookEditor) (p : Option String)
    (c : ExecuteReplyContent) (h : c.status ≠ "error") :
    handle_msg (handle_msg st (KernelMsg.executeReply p c)) (KernelMsg.executeReply p c) =
      handle_msg st (KernelMsg.executeReply p c) := by
  have hcell_eq : ∀ cl : CellData, handle_execute_reply_cell cl c =
      { cl with prompt_count := c.execution_count } := by
    intro cl
    unfold handle_execute_reply_cell set_execution_count
    dsimp only
    rw [if_neg h]
  have hff : ∀ cl : CellData,
      handle_execute_reply_cell (handle_execute_reply_cell cl c) c =
        handle_execute_reply_cell cl c := by
    intro cl
    simp [hcell_eq]
  exact applyToResolved_idem st p _ hff

/-- Witness for `reply_twice_idempotent_for_ok` at a concrete ok-reply. -/
theorem reply_twice_idempotent_for_ok_witness :
    ({ status := "ok", execution_count := some 1 : ExecuteReplyContent }).status ≠ "error" ∧
    handle_msg (handle_msg nb1 (KernelMsg.executeReply (some "m1")
        { status := "ok", execution_count := some 1 }))
      (KernelMsg.executeReply (some "m1") { status := "ok", execution_count := some 1 }) =
      handle_msg nb1 (KernelMsg.executeReply (some "m1")
        { status := "ok", execution_count := some 1 }) :=
  ⟨by decide, reply_twice_idempotent_for_ok nb1 (some "m1") _ (by decide)⟩

/-! ### C4 -/

/-- C4 counterexample: `nb1`'s cell displays execution count 5; after
`execute_cell` the displayed count is still 5 — `execute_cell` never
calls `set_execution_count` — not the blank (None) prompt the claim
requires. -/
theorem execute_cell_does_not_blank_count_cx :
    ((execute_cell nb1 0 (some "m2")).1.cells[0]?).map (fun c => c.prompt_count) =
      some (some 5) ∧
    ((execute_cell nb1 0 (some "m2")).1.cells[0]?).map (fun c => c.prompt_count) ≠
      some none := by
  decide

/-- C4 (amended): with a transport attached, `execute_cell` clears the
cell's output log, dispatches the source, stores the returned request id
as the cell's pending id and registers it in the correlation table — all
before any new output event can be appended, and without raising — but it
does NOT reset the displayed execution count: the result cell keeps every
field of the old cell except the cleared output and the new pending id. -/
theorem execute_cell_amended (st : NotebookEditor) (index : Nat) (cell : CellData)
    (msg_id : String) (h : st.cells[index]? = some cell) :
    (execute_cell st index (some msg_id)).1.cells[index]? =
        some { cell with output := [], execute_request_msg_id := some msg_id } ∧
      dictGet (execute_cell st index (some msg_id)).1.execute_msg_ids msg_id = some index ∧
      (execute_cell st index (some msg_id)).2 = none := by
  have hlt : index < st.cells.length := (List.getElem?_eq_some.mp h).1
  rw [execute_cell_with_client st index cell msg_id h]
  exact ⟨List.getElem?_set_self hlt, dictGet_dictInsert_self _ _ _, rfl⟩

/-- Witness for `execute_cell_amended` at `nb1`. -/
theorem execute_cell_amended_witness :
    nb1.cells[0]? = some cell1 ∧
    ((execute_cell nb1 0 (some "m2")).1.cells[0]? =
        some { cell1 with output := [], execute_request_msg_id := some "m2" } ∧
      dictGet (execute_cell nb1 0 (some "m2")).1.execute_msg_ids "m2" = some 0 ∧
      (execute_cell nb1 0 (some "m2")).2 = none) :=
  ⟨by decide, execute_cell_amended nb1 0 cell1 "m2" (by decide)⟩

/-! ### C5 -/

/-- C5 counterexample: a displayData payload listing image/png before
image/svg+xml renders the svg — `popitem()` takes the LAST image entry —
not the png that the claimed png-over-svg priority requires. -/
theorem display_data_png_not_preferred_cx :
    ((handle_msg nb1 (KernelMsg.displayData (some "m1")
        { data := [("image/png", "PNGDATA"), ("image/svg+xml", "SVGDATA")] })).cells[0]?).map
          (fun c => c.output) =
      some [ViewItem.plain "\n", ViewItem.svg "SVGDATA"] ∧
    ((handle_msg nb1 (KernelMsg.displayData (some "m1")
        { data := [("image/png", "PNGDATA"), ("image/svg+xml", "SVGDATA")] })).cells[0]?).map
          (fun c => c.output) ≠
      some [ViewItem.html ("<br/><img src=\"data:image/png;base64,PNGDATA\" />")] := by
  decide

/-- The representation selection the code actually implements (amending
the claimed png > svg > html > plain priority): among `image/*` entries
the LAST one in the payload's insertion order is chosen — png renders as
an inline image, svg as a newline plus an svg object, any other image
mimetype renders nothing; `text/plain` is never consulted, because the
handler receives only the image-filtered map; with no image entry, a
non-empty `text/html` renders as html; otherwise nothing renders. -/
def displayDataOutput (data : List (String × String)) : List ViewItem :=
  match (data.filter (fun kv => startswith kv.1 "image/")).getLast? with
  | some (mimetype, payload) =>
    if mimetype = "image/png" then
      [ViewItem.html ("<br/><img src=\"data:image/png;base64," ++ payload ++ "\" />")]
    else if mimetype = "image/svg+xml" then
      [ViewItem.plain "\n", ViewItem.svg payload]
    else []
  | none =>
    if dataGet data "text/html" "" ≠ "" then [ViewItem.html (dataGet data "text/html" "")]
    else []

theorem handle_display_data_cell_eq (cell : CellData) (data : List (String × String)) :
    handle_display_data_cell cell data =
      { cell with output := cell.output ++ displayDataOutput data } := by
  have hidem : (data.filter (fun kv => startswith kv.1 "image/")).filter
        (fun kv => startswith kv.1 "image/") =
      data.filter (fun kv => startswith kv.1 "image/") :=
    List.filter_eq_self.mpr (fun a ha => (List.mem_filter.mp ha).2)
  unfold handle_display_data_cell handle_image_display_data handle_html_display_data
    displayDataOutput
  dsimp only
  rw [hidem]
  cases hlast : (data.filter (fun kv => startswith kv.1 "image/")).getLast? with
  | none =>
    have hemp : data.filter (fun kv => startswith kv.1 "image/") = [] :=
      List.getLast?_eq_none_iff.mp hlast
    rw [hemp]
    by_cases hh : dataGet data "text/html" "" ≠ ""
    · rw [if_neg (fun hne => hne rfl), if_pos hh, if_pos hh]
    · rw [if_neg (fun hne => hne rfl), if_neg hh, if_neg hh]
      simp
  | some mp =>
    obtain ⟨m, pl⟩ := mp
    have hne : data.filter (fun kv => startswith kv.1 "image/") ≠ [] := by
      intro he
      rw [he] at hlast
      cases hlast
    rw [if_pos hne]
    by_cases hpng : m = "image/png"
    · simp [hpng]
    · by_cases hsvg : m = "image/svg+xml"
      · simp [hpng, hsvg]
      · simp [hpng, hsvg]

/-- C5 (amended): for every displayData message that resolves to a cell,
exactly one representation is chosen deterministically, but by the rule
of `displayDataOutput`: the LAST image entry of the payload map wins
(png or svg render, other image types render nothing, `text/plain` is
never used as a fallback), and `text/html` is used only when no image
entry exists; the handler appends exactly that output and touches
nothing else. -/
theorem display_data_selection (st : NotebookEditor) (p : Option String)
    (data : List (String × String)) (i : Nat) (cell : CellData)
    (hres : resolveCell st p = some i) (hc : st.cells[i]? = some cell) :
    handle_msg st (KernelMsg.displayData p { data := data }) =
      setCell st i { cell with output := cell.output ++ displayDataOutput data } := by
  show applyToResolved st p _ = _
  rw [applyToResolved_resolved st p _ i cell hres hc, handle_display_data_cell_eq]

/-- Witness for `display_data_selection` on a png + text/plain payload. -/
theorem display_data_selection_witness :
    resolveCell nb1 (some "m1") = some 0 ∧
    nb1.cells[0]? = some cell1 ∧
    handle_msg nb1 (KernelMsg.displayData (some "m1")
        { data := [("image/png", "P"), ("text/plain", "T")] }) =
      setCell nb1 0
        { cell1 with
          output := cell1.output ++
            displayDataOutput [("image/png", "P"), ("text/plain", "T")] } :=
  ⟨by decide, by decide, display_data_selection nb1 (some "m1")
    [("image/png", "P"), ("text/plain", "T")] 0 cell1 (by decide) (by decide)⟩

/-! ### C6 -/

/-- C6 counterexample: `execute_cell` on `nb6` with no transport raises,
but the cell's output log has already been cleared and the prior
correlation entry evicted — the claim that the failed call leaves the
cell state unchanged is false. -/
theorem no_transport_state_changed_cx :
    (execute_cell nb6 0 none).2 = some ExecuteCellError.attributeError ∧
    nb6.cells[0]?.map (fun c => c.output) = some [ViewItem.plain "old"] ∧
    ((execute_cell nb6 0 none).1.cells[0]?).map (fun c => c.output) = some [] ∧
    dictGet nb6.execute_msg_ids "m0" = some 0 ∧
    dictGet (execute_cell nb6 0 none).1.execute_msg_ids "m0" = none := by
  decide

/-- C6 (amended): `execute_cell` with no kernel transport fails with an
error propagated to the caller (the attribute access on the absent client
raises; there is no dedicated NoTransportError), and at that point the
pending request id is unchanged but the output log has already been
cleared and the cell's prior correlation entry evicted. -/
theorem execute_cell_no_transport (st : NotebookEditor) (index : Nat) (cell : CellData)
    (h : st.cells[index]? = some cell) :
    (execute_cell st index none).2 = some ExecuteCellError.attributeError ∧
    (execute_cell st index none).1.cells[index]? = some { cell with output := [] } ∧
    (execute_cell st index none).1.execute_msg_ids =
      dictPop st.execute_msg_ids cell.execute_request_msg_id := by
  have hlt : index < st.cells.length := (List.getElem?_eq_some.mp h).1
  rw [execute_cell_no_client st index cell h]
  exact ⟨rfl, List.getElem?_set_self hlt, rfl⟩

/-- Witness for `execute_cell_no_transport` at `nb6`. -/
theorem execute_cell_no_transport_witness :
    nb6.cells[0]? =
      some { execute_request_msg_id := some "m0"
             output := [ViewItem.plain "old"] } ∧
    ((execute_cell nb6 0 none).2 = some ExecuteCellError.attributeError ∧
      (execute_cell nb6 0 none).1.cells[0]? =
        some { execute_request_msg_id := some "m0", output := [] } ∧
      (execute_cell nb6 0 none).1.execute_msg_ids =
        dictPop nb6.execute_msg_ids (some "m0")) :=
  ⟨by decide, execute_cell_no_transport nb6 0
    { execute_request_msg_id := some "m0", output := [ViewItem.plain "old"] } (by decide)⟩

/-! ### C7 -/

/-- C7: an inbound message of any kind whose parent request id fails
correlation lookup is a no-op: the whole state — every cell's output log,
displayed count and pending id, and the table — is returned unchanged,
and no failure occurs (the handlers are total). -/
theorem unresolved_message_noop (st : NotebookEditor) (m : KernelMsg)
    (h : resolveCell st (msgParent m) = none) :
    handle_msg st m = st := by
  cases m with
  | executeReply p c => exact applyToResolved_unresolved st p _ h
  | executeResult p c => exact applyToResolved_unresolved st p _ h
  | displayData p c => exact applyToResolved_unresolved st p _ h
  | stream p c => exact applyToResolved_unresolved st p _ h

/-- Witness for `unresolved_message_noop`: a stream message answering a
foreign request id leaves `nb1` unchanged. -/
theorem unresolved_message_noop_witness :
    resolveCell nb1 (msgParent (KernelMsg.stream (some "zz")
      { text := some "hello", name := some "stdout" })) = none ∧
    handle_msg nb1 (KernelMsg.stream (some "zz")
      { text := some "hello", name := some "stdout" }) = nb1 :=
  ⟨by decide, unresolved_message_noop nb1 _ (by decide)⟩

/-! ### C8 -/

theorem handle_execute_reply_resolved (st : NotebookEditor) (p : Option String)
    (c : ExecuteReplyContent) (i : Nat) (cell : CellData)
    (hres : resolveCell st p = some i) (hc : st.cells[i]? = some cell) :
    handle_msg st (KernelMsg.executeReply p c) =
      setCell st i (handle_execute_reply_cell cell c) := by
  show applyToResolved st p _ = _
  exact applyToResolved_resolved st p _ i cell hres hc

theorem handle_execute_reply_cell_error (cell : CellData) (c : ExecuteReplyContent)
    (hs : c.status = "error") (ht : remove_ansi_control (joinLines c.traceback) ≠ "") :
    handle_execute_reply_cell cell c =
      { cell with
        output := cell.output ++
          [ViewItem.plain (remove_ansi_control (joinLines c.traceback))],
        visible := true, prompt_count := c.execution_count } := by
  unfold handle_execute_reply_cell set_execution_count
  dsimp only
  rw [if_pos hs, if_pos ht]

/-- C8: submitting a cell and then processing an error executeReply for
the issued request joins the traceback lines with newlines, strips ANSI
control sequences, appends the non-empty result as the single error
output event (the log was cleared by the submit, so afterwards it holds
exactly that one event), shows the view, and sets the displayed execution
count to the reply's counter (None when absent). -/
theorem error_reply_after_submit (st : NotebookEditor) (index : Nat) (cell : CellData)
    (msg_id : String) (tbLines : List String) (count : Option Int)
    (hcell : st.cells[index]? = some cell)
    (htb : remove_ansi_control (joinLines tbLines) ≠ "") :
    (handle_msg (execute_cell st index (some msg_id)).1
        (KernelMsg.executeReply (some msg_id)
          { status := "error", traceback := tbLines,
            execution_count := count })).cells[index]? =
      some { cell with
             execute_request_msg_id := some msg_id,
             output := [ViewItem.plain (remove_ansi_control (joinLines tbLines))],
             visible := true,
             prompt_count := count } := by
  have hlt : index < st.cells.length := (List.getElem?_eq_some.mp hcell).1
  have h1 : (execute_cell st index (some msg_id)).1.cells[index]? =
      some { cell with output := [], execute_request_msg_id := some msg_id } := by
    rw [execute_cell_with_client st index cell msg_id hcell]
    exact List.getElem?_set_self hlt
  have h2 : resolveCell (execute_cell st index (some msg_id)).1 (some msg_id) = some index := by
    rw [execute_cell_with_client st index cell msg_id hcell]
    exact dictGet_dictInsert_self _ _ _
  rw [handle_execute_reply_resolved (execute_cell st index (some msg_id)).1 (some msg_id) _
    index { cell with output := [], execute_request_msg_id := some msg_id } h2 h1]
  rw [handle_execute_reply_cell_error _ _ rfl htb]
  rw [execute_cell_with_client st index cell msg_id hcell]
  show ((st.cells.set index _).set index _)[index]? = _
  rw [List.set_set, List.getElem?_set_self hlt]
  rfl

/-- Witness for `error_reply_after_submit`: the "1/0" scenario. -/
theorem error_reply_after_submit_witness :
    nb1.cells[0]? = some cell1 ∧
    remove_ansi_control (joinLines ["ZeroDivisionError: division by zero"]) ≠ "" ∧
    (handle_msg (execute_cell nb1 0 (some "m9")).1
        (KernelMsg.executeReply (some "m9")
          { status := "error", traceback := ["ZeroDivisionError: division by zero"],
            execution_count := some 1 })).cells[0]? =
      some { cell1 with
             execute_request_msg_id := some "m9",
             output := [ViewItem.plain (remove_ansi_control
               (joinLines ["ZeroDivisionError: division by zero"]))],
             visible := true,
             prompt_count := some 1 } :=
  ⟨by decide, by decide, error_reply_after_submit nb1 0 cell1 "m9"
    ["ZeroDivisionError: division by zero"] (some 1) (by decide) (by decide)⟩

/-! ### C9 -/

/-- C9: for an executeReply that resolves to a cell, an output event is
appended iff the status is "error" and the joined, ANSI-stripped
traceback is non-empty (in which case the view is also shown); otherwise
— ok status, or an error whose traceback strips to empty — only the
displayed execution count changes, set to the reply's counter. -/
theorem execute_reply_append_iff (st : NotebookEditor) (p : Option String)
    (c : ExecuteReplyContent) (i : Nat) (cell : CellData)
    (hres : resolveCell st p = some i) (hc : st.cells[i]? = some cell) :
    handle_msg st (KernelMsg.executeReply p c) =
      setCell st i
        (if c.status = "error" ∧ remove_ansi_control (joinLines c.traceback) ≠ "" then
          { cell with
            output := cell.output ++
              [ViewItem.plain (remove_ansi_control (joinLines c.traceback))],
            visible := true, prompt_count := c.execution_count }
        else { cell with prompt_count := c.execution_count }) := by
  rw [handle_execute_reply_resolved st p c i cell hres hc]
  congr 1
  unfold handle_execute_reply_cell set_execution_count
  dsimp only
  by_cases hs : c.status = "error"
  · by_cases ht : remove_ansi_control (joinLines c.traceback) ≠ ""
    · rw [if_pos hs, if_pos ht, if_pos ⟨hs, ht⟩]
    · rw [if_pos hs, if_neg ht, if_neg (fun hh => ht hh.2)]
  · rw [if_neg hs, if_neg (fun hh => hs hh.1)]

/-- A reply with ok status, used by the C9 witness. -/
def replyOk : ExecuteReplyContent :=
  { status := "ok", execution_count := some 3 }

/-- Witness for `execute_reply_append_iff` at an ok reply on `nb1`. -/
theorem execute_reply_append_iff_witness :
    resolveCell nb1 (some "m1") = some 0 ∧
    nb1.cells[0]? = some cell1 ∧
    handle_msg nb1 (KernelMsg.executeReply (some "m1") replyOk) =
      setCell nb1 0
        (if replyOk.status = "error" ∧
            remove_ansi_control (joinLines replyOk.traceback) ≠ "" then
          { cell1 with
            output := cell1.output ++
              [ViewItem.plain (remove_ansi_control (joinLines replyOk.traceback))],
            visible := true, prompt_count := replyOk.execution_count }
        else { cell1 with prompt_count := replyOk.execution_count }) :=
  ⟨by decide, by decide,
    execute_reply_append_iff nb1 (some "m1") replyOk 0 cell1 (by decide) (by decide)⟩

/-! ### C10 -/

/-- C10: a stream message that resolves to a cell but whose text payload
is the empty string or absent appends no output event and does not make
the output view visible, yet still sets the displayed execution count
from the message — None when the field is absent, as it normally is for
stream messages. -/
theorem stream_empty_text_updates_count_only (st : NotebookEditor) (p : Option String)
    (c : StreamContent) (i : Nat) (cell : CellData)
    (hres : resolveCell st p = some i) (hc : st.cells[i]? = some cell)
    (htext : c.text.getD "" = "") :
    handle_msg st (KernelMsg.stream p c) =
      setCell st i { cell with prompt_count := c.execution_count } := by
  show applyToResolved st p _ = _
  rw [applyToResolved_resolved st p _ i cell hres hc]
  congr 1
  unfold handle_stream_cell set_execution_count
  dsimp only
  rw [if_neg (fun hne => hne htext)]

/-- Witness for `stream_empty_text_updates_count_only`: a stream message
with absent text and absent execution count blanks the prompt of `nb1`'s
cell and appends nothing. -/
theorem stream_empty_text_updates_count_only_witness :
    resolveCell nb1 (some "m1") = some 0 ∧
    nb1.cells[0]? = some cell1 ∧
    (({} : StreamContent).text.getD "" = "") ∧
    handle_msg nb1 (KernelMsg.stream (some "m1") {}) =
      setCell nb1 0 { cell1 with prompt_count := none } :=
  ⟨by decide, by decide, by decide,
    stream_empty_text_updates_count_only nb1 (some "m1") {} 0 cell1 (by decide) (by decide)
      (by decide)⟩

end NB
